import Mathlib

/-!
Verification of the grid-app frontend's unified data-fetching layer.

Shallow embedding of:
* `src/frontend/src/api/dataFetcher.js` (class `DataFetcher`)
* `src/frontend/src/api/graphqlClient.js` (class `GraphQLClientWrapper`)
* the SSE message handler in `src/frontend/src/App.jsx` (`startDataFetch`)
* the API-mode preference hook `useApiToggle` (localStorage slot `apiMode`)

JavaScript values flowing through these functions are modelled by a small
JSON-like inductive type `Json`, with `undefined` standing for JavaScript's
`undefined` (the value of an absent object property).  Numbers are modelled
as `Int`: no claim depends on float semantics.  Wall-clock readings
(`Date.now()`) are passed in explicitly as `Int` parameters.
-/

namespace GridApp

/-- JavaScript values as seen by the data-fetching layer. -/
inductive Json where
  | undefined : Json
  | null : Json
  | bool : Bool → Json
  | num : Int → Json
  | str : String → Json
  | arr : List Json → Json
  | obj : List (String × Json) → Json

/-- First binding of a key in a JS object's property list (`undefined` if absent). -/
def getFieldList : List (String × Json) → String → Json
  | [], _ => .undefined
  | (k', v) :: rest, k => if k' == k then v else getFieldList rest k

/-- JS property access `j[k]`.  On a non-object receiver the properties used by
this code base are absent, so the access yields `undefined`. -/
def Json.get (j : Json) (k : String) : Json :=
  match j with
  | .obj fields => getFieldList fields k
  | _ => .undefined

/-- JavaScript truthiness of a value. -/
def Json.truthy : Json → Bool
  | .undefined => false
  | .null => false
  | .bool b => b
  | .num n => n != 0
  | .str s => s != ""
  | .arr _ => true
  | .obj _ => true

/-- `Array.isArray`. -/
def Json.isArr : Json → Bool
  | .arr _ => true
  | _ => false

/-- The element list of an array value (only used under an `isArr` guard). -/
def Json.asArr : Json → List Json
  | .arr xs => xs
  | _ => []

/-- The property names of an object value, in insertion order. -/
def Json.keys : Json → List String
  | .obj fs => fs.map Prod.fst
  | _ => []

/-- JS `.length`: defined for arrays and strings, `undefined` otherwise. -/
def jsLength : Json → Json
  | .arr xs => .num xs.length
  | .str s => .num s.length
  | _ => .undefined

/-- JS template interpolation of a possibly-null string (`null` prints "null"). -/
def jsShow : Option String → String
  | some t => t
  | none => "null"

/-- An optional string as a JS value (`null` when absent). -/
def jsonOfOptStr : Option String → Json
  | some s => .str s
  | none => .null

/-- Truthiness of an optional string argument (JS: `null` and `""` are falsy). -/
def strOptTruthy : Option String → Bool
  | some s => s != ""
  | none => false

/-- `String.prototype.includes`: `pat` occurs as a substring of `s`
(for the non-empty patterns used in the code). -/
def includesSub (s pat : String) : Bool :=
  (s.splitOn pat).length != 1

/-! ## API-mode preference store (`useApiToggle`, `src/unnamed/part_001`)

`useApiToggle` reads `localStorage.getItem('apiMode')` once at startup and
returns `saved === 'graphql'`; on every change it writes
`useGraphQL ? 'graphql' : 'rest'` back under the same key.  The stored slot
is modelled as `Option String` (`none` = no saved preference / the store
yields nothing). -/

/-- Startup restore: `const saved = localStorage.getItem('apiMode');
return saved === 'graphql';` -/
def loadApiMode (saved : Option String) : Bool :=
  match saved with
  | some s => s == "graphql"
  | none => false

/-- The string written back to the store:
`localStorage.setItem('apiMode', useGraphQL ? 'graphql' : 'rest')`. -/
def savedApiModeString (useGraphQL : Bool) : String :=
  if useGraphQL then "graphql" else "rest"

/-! ## GraphQL transport client (`graphqlClient.js`)

`GraphQLClientWrapper` holds a nullable client handle and the current token;
`setToken` (re)creates the handle, `request` fails with `NotInitialized` when
`setToken` was never called, maps an upstream 401 to the `TOKEN_EXPIRED`
sentinel, and propagates any other failure unchanged. -/

/-- State of the `GraphQLClientWrapper` singleton: `inited` is
`this.client !== null` (i.e. `setToken` has been called at least once). -/
structure GqlClientState where
  inited : Bool
  token : Option String

/-- `setToken(token)`: stores the token and (re)creates the client handle. -/
def gqlSetToken (_g : GqlClientState) (token : Option String) : GqlClientState :=
  { inited := true, token := token }

/-- The Authorization header the GraphQL client attaches:
`headers: token ? { Authorization: Bearer <token> } : {}`. -/
def gqlAuthHeader (g : GqlClientState) : Option String :=
  match g.token with
  | some t => if t != "" then some ("Bearer " ++ t) else none
  | none => none

/-- Outcome of the underlying `graphql-request` call, supplied by the
environment: either resolved data, or a rejection carrying the upstream
HTTP status (when a response exists) and the raw error message. -/
inductive GqlOutcome where
  | ok : Json → GqlOutcome
  | err : Option Nat → String → GqlOutcome

/-- Which transport a network request was issued on. -/
inductive Transport where
  | rest : Transport
  | graphql : Transport
deriving DecidableEq

/-- A network request as issued by the fetch layer (transport, target,
HTTP verb, and the Authorization header value, if any). -/
structure IssuedRequest where
  transport : Transport
  endpoint : String
  method : String
  auth : Option String

/-- `GraphQLClientWrapper.request(query, variables)`: fails with the
not-initialized error when no client handle exists (no network request is
issued), otherwise issues the POST to `/graphql` and classifies the outcome:
an upstream 401 becomes the `TOKEN_EXPIRED` sentinel, any other rejection
propagates its raw message. -/
def gqlRequest (g : GqlClientState) (env : GqlOutcome) :
    Except String Json × Option IssuedRequest :=
  if g.inited then
    (match env with
      | .ok d => Except.ok d
      | .err status msg =>
        if status == some 401 then Except.error "TOKEN_EXPIRED" else Except.error msg,
     some ⟨Transport.graphql, "/graphql", "POST", gqlAuthHeader g⟩)
  else
    (Except.error "GraphQL client not initialized. Call setToken() first.", none)

/-! ## DataFetcher state (`dataFetcher.js`)

The orchestrator holds the token, the mode flag, the optional log callback
and the request-sequence counter.  The records delivered through the log
callback are accumulated in `logs` (the sink). -/

/-- One instrumentation record passed to the log callback. -/
structure LogRecord where
  id : Nat
  endpoint : String
  method : String
  status : String
  requestData : Json
  response : Json
  error : Option String
  duration : Int
  timestamp : Int

/-- The `DataFetcher` instance fields. -/
structure DataFetcherState where
  token : Option String
  useGraphQL : Bool
  hasLogCallback : Bool
  requestCounter : Nat

/-- The whole system the fetch layer touches: the fetcher instance, the
GraphQL client singleton, and the records accumulated by the log sink. -/
structure SysState where
  fetcher : DataFetcherState
  gql : GqlClientState
  logs : List LogRecord

/-- `DataFetcher.log(...)`: when a callback is configured, bump the sequence
counter and append one record to the sink; otherwise do nothing. -/
def logOp (s : SysState) (endpoint method status : String)
    (requestData response : Json) (error : Option String)
    (duration : Int) (now : Int) : SysState :=
  if s.fetcher.hasLogCallback then
    { s with
      fetcher := { s.fetcher with requestCounter := s.fetcher.requestCounter + 1 },
      logs := s.logs ++
        [⟨s.fetcher.requestCounter + 1, endpoint, method, status,
          requestData, response, error, duration, now⟩] }
  else s

/-- `new DataFetcher(token, useGraphQL, logCallback)`: stores the fields and,
when starting in GraphQL mode, arms the GraphQL client with the token.
The sink starts empty. -/
def initFetcher (token : Option String) (useGraphQL : Bool) (hasLog : Bool)
    (g : GqlClientState) : SysState :=
  { fetcher := ⟨token, useGraphQL, hasLog, 0⟩,
    gql := if useGraphQL then gqlSetToken g token else g,
    logs := [] }

/-- `DataFetcher.setMode(useGraphQL)`: switches transport; entering GraphQL
mode re-arms the GraphQL client with the current token. -/
def setMode (s : SysState) (useGraphQL : Bool) : SysState :=
  if useGraphQL then
    { s with fetcher := { s.fetcher with useGraphQL := useGraphQL },
             gql := gqlSetToken s.gql s.fetcher.token }
  else
    { s with fetcher := { s.fetcher with useGraphQL := useGraphQL } }

/-- `DataFetcher.setToken(token)`: updates the stored token; while in GraphQL
mode, re-arms the GraphQL client. -/
def setToken (s : SysState) (token : Option String) : SysState :=
  if s.fetcher.useGraphQL then
    { s with fetcher := { s.fetcher with token := token },
             gql := gqlSetToken s.gql token }
  else
    { s with fetcher := { s.fetcher with token := token } }

/-! ## The per-call environment and result -/

/-- Outcome of a REST `fetch(url, ...)` call, supplied by the environment:
either a response arrived (with its HTTP status and JSON body), or the
call rejected (network failure) with the given error message. -/
inductive RestOutcome where
  | resp : Nat → Json → RestOutcome
  | netFail : String → RestOutcome

/-- The upstream environment for one fetch call, covering both transports
(the call consults only the side selected by the mode). -/
structure FetchEnv where
  rest : RestOutcome
  gqlr : GqlOutcome

/-- Result of one fetch call: the value returned or error thrown, the updated
system state, and the network request that was issued (if any). -/
structure FetchResult where
  result : Except String Json
  sys : SysState
  issued : Option IssuedRequest

/-- The `{ count: data.length }` response summary used in REST success logs. -/
def countSummary (body : Json) : Json :=
  Json.obj [("count", jsLength body)]

/-- The shared REST branch of the fetch operations: issue an authenticated
GET, map 401 to `TOKEN_EXPIRED`, map other non-2xx statuses to an HTTP
error, return a 2xx body unchanged; log exactly once per call — the `catch`
block skips logging when the error message contains `TOKEN_EXPIRED` or
`HTTP`, which are exactly the errors already logged before being thrown. -/
def restGet (s : SysState) (url : String) (summary : Json → Json)
    (env : RestOutcome) (t0 t1 : Int) : FetchResult :=
  let issued : IssuedRequest :=
    ⟨Transport.rest, url, "GET", some ("Bearer " ++ jsShow s.fetcher.token)⟩
  let duration := t1 - t0
  match env with
  | .resp status body =>
    if status == 401 then
      ⟨Except.error "TOKEN_EXPIRED",
       logOp s url "GET" "error" .null .null (some "TOKEN_EXPIRED") duration t1,
       some issued⟩
    else if !(200 ≤ status && status < 300) then
      ⟨Except.error ("HTTP error! status: " ++ toString status),
       logOp s url "GET" "error" .null .null (some ("HTTP " ++ toString status)) duration t1,
       some issued⟩
    else
      ⟨Except.ok body,
       logOp s url "GET" "success" .null (summary body) none duration t1,
       some issued⟩
  | .netFail msg =>
    if !includesSub msg "TOKEN_EXPIRED" && !includesSub msg "HTTP" then
      ⟨Except.error msg,
       logOp s url "GET" "error" .null .null (some msg) duration t1,
       some issued⟩
    else
      ⟨Except.error msg, s, some issued⟩

/-- The shared GraphQL branch of the list-returning fetch operations
(voltage, power quality, faults): run the query, guard that the named
collection field is a (truthy) array, and map each element through the
per-resource renaming.  When the guard fails the invalid-data error is
logged at detection, thrown, and then logged a second time by the
surrounding `catch` before being rethrown. -/
def gqlListFetch (s : SysState) (fieldName invalidMsg : String)
    (reqData : Json) (mapRec : Json → Json) (env : GqlOutcome)
    (t0 t1 : Int) : FetchResult :=
  let duration := t1 - t0
  match gqlRequest s.gql env with
  | (Except.ok data, issued) =>
    let coll := data.get fieldName
    if !coll.truthy || !coll.isArr then
      let s1 := logOp s "/graphql" "GraphQL" "error" reqData .null (some invalidMsg) duration t1
      let s2 := logOp s1 "/graphql" "GraphQL" "error" reqData .null (some invalidMsg) duration t1
      ⟨Except.error invalidMsg, s2, issued⟩
    else
      let result := coll.asArr.map mapRec
      ⟨Except.ok (Json.arr result),
       logOp s "/graphql" "GraphQL" "success" reqData
         (Json.obj [("count", Json.num result.length)]) none duration t1,
       issued⟩
  | (Except.error msg, issued) =>
    ⟨Except.error msg,
     logOp s "/graphql" "GraphQL" "error" reqData .null (some msg) duration t1,
     issued⟩

/-! ## Per-resource GraphQL→REST renamings (the response normalizer) -/

/-- The voltage-reading renaming applied to each element of
`data.voltageReadings` in `fetchVoltage`'s GraphQL branch. -/
def mapVoltageReading (reading : Json) : Json :=
  Json.obj
    [("id", reading.get "id"),
     ("sensor_id", reading.get "sensorId"),
     ("location", reading.get "location"),
     ("voltage_l1", reading.get "voltageL1"),
     ("voltage_l2", reading.get "voltageL2"),
     ("voltage_l3", reading.get "voltageL3"),
     ("frequency", reading.get "frequency"),
     ("timestamp", reading.get "timestamp")]

/-- The power-quality renaming applied to each element of
`data.powerQuality` in `fetchPowerQuality`'s GraphQL branch. -/
def mapPowerQualityMetric (metric : Json) : Json :=
  Json.obj
    [("id", metric.get "id"),
     ("sensor_id", metric.get "sensorId"),
     ("location", metric.get "location"),
     ("thd_voltage", metric.get "thdVoltage"),
     ("thd_current", metric.get "thdCurrent"),
     ("power_factor", metric.get "powerFactor"),
     ("voltage_imbalance", metric.get "voltageImbalance"),
     ("flicker_severity", metric.get "flickerSeverity"),
     ("timestamp", metric.get "timestamp")]

/-- The fault-event renaming applied to each element of
`data.faultEvents` in `fetchFaults`'s GraphQL branch. -/
def mapFaultEvent (fault : Json) : Json :=
  Json.obj
    [("id", fault.get "id"),
     ("event_id", fault.get "eventId"),
     ("severity", fault.get "severity"),
     ("fault_type", fault.get "eventType"),
     ("location", fault.get "location"),
     ("timestamp", fault.get "timestamp"),
     ("duration_ms", fault.get "durationMs"),
     ("resolved", fault.get "resolved"),
     ("resolved_at", fault.get "resolvedAt")]

/-- The fleet-statistics renaming applied to `data.sensorStats` in
`fetchStats`'s GraphQL branch. -/
def mapSensorStats (st : Json) : Json :=
  Json.obj
    [("total_sensors", st.get "totalSensors"),
     ("active_sensors", st.get "activeSensors"),
     ("offline_sensors", st.get "offlineSensors"),
     ("total_faults_24h", st.get "faultCount24h"),
     ("quality_violations", st.get "violationCount24h"),
     ("avg_voltage", st.get "avgVoltage"),
     ("avg_power_factor", st.get "avgPowerFactor"),
     ("min_voltage", st.get "minVoltage"),
     ("max_voltage", st.get "maxVoltage")]

/-! ## The five fetch operations -/

/-- The URL built by `fetchVoltage`'s REST branch (the `sensor_id` query
parameter is added only when `sensorId` is truthy). -/
def voltageUrl (limit : Int) (sensorId : Option String) : String :=
  if strOptTruthy sensorId then
    "/api/sensors/voltage?limit=" ++ toString limit ++ "&sensor_id=" ++ jsShow sensorId
  else
    "/api/sensors/voltage?limit=" ++ toString limit

/-- The URL built by `fetchPowerQuality`'s REST branch. -/
def powerQualityUrl (limit : Int) (sensorId : Option String) : String :=
  if strOptTruthy sensorId then
    "/api/sensors/power-quality?limit=" ++ toString limit ++ "&sensor_id=" ++ jsShow sensorId
  else
    "/api/sensors/power-quality?limit=" ++ toString limit

/-- `fetchVoltage(limit = 30, sensorId = null)`. -/
def fetchVoltage (s : SysState) (limit : Int) (sensorId : Option String)
    (env : FetchEnv) (t0 t1 : Int) : FetchResult :=
  if s.fetcher.useGraphQL then
    gqlListFetch s "voltageReadings" "Invalid voltage data received"
      (Json.obj [("query", Json.str "voltageReadings"),
                 ("limit", Json.num limit), ("sensorId", jsonOfOptStr sensorId)])
      mapVoltageReading env.gqlr t0 t1
  else
    restGet s (voltageUrl limit sensorId) countSummary env.rest t0 t1

/-- `fetchPowerQuality(limit = 20, sensorId = null)`. -/
def fetchPowerQuality (s : SysState) (limit : Int) (sensorId : Option String)
    (env : FetchEnv) (t0 t1 : Int) : FetchResult :=
  if s.fetcher.useGraphQL then
    gqlListFetch s "powerQuality" "Invalid power quality data received"
      (Json.obj [("query", Json.str "powerQuality"),
                 ("limit", Json.num limit), ("sensorId", jsonOfOptStr sensorId)])
      mapPowerQualityMetric env.gqlr t0 t1
  else
    restGet s (powerQualityUrl limit sensorId) countSummary env.rest t0 t1

/-- `fetchFaults(limit = 10, severity = null)`: the REST branch targets the
fixed `/api/faults/recent` endpoint and passes no query parameters. -/
def fetchFaults (s : SysState) (limit : Int) (severity : Option String)
    (env : FetchEnv) (t0 t1 : Int) : FetchResult :=
  if s.fetcher.useGraphQL then
    gqlListFetch s "faultEvents" "Invalid fault events data received"
      (Json.obj [("query", Json.str "faultEvents"),
                 ("limit", Json.num limit), ("severity", jsonOfOptStr severity)])
      mapFaultEvent env.gqlr t0 t1
  else
    restGet s "/api/faults/recent" countSummary env.rest t0 t1

/-- `fetchStats()`: the GraphQL branch guards only that `data.sensorStats`
is truthy (there is no collection here) and renames its fields; the invalid
case is logged at detection and again by the surrounding `catch`. -/
def fetchStats (s : SysState) (env : FetchEnv) (t0 t1 : Int) : FetchResult :=
  if s.fetcher.useGraphQL then
    let duration := t1 - t0
    let reqData := Json.obj [("query", Json.str "sensorStats")]
    match gqlRequest s.gql env.gqlr with
    | (Except.ok data, issued) =>
      if !(data.get "sensorStats").truthy then
        let s1 := logOp s "/graphql" "GraphQL" "error" reqData .null
          (some "Invalid sensor stats data received") duration t1
        let s2 := logOp s1 "/graphql" "GraphQL" "error" reqData .null
          (some "Invalid sensor stats data received") duration t1
        ⟨Except.error "Invalid sensor stats data received", s2, issued⟩
      else
        let result := mapSensorStats (data.get "sensorStats")
        ⟨Except.ok result,
         logOp s "/graphql" "GraphQL" "success" reqData result none duration t1,
         issued⟩
    | (Except.error msg, issued) =>
      ⟨Except.error msg,
       logOp s "/graphql" "GraphQL" "error" reqData .null (some msg) duration t1,
       issued⟩
  else
    restGet s "/api/sensors/stats" (fun d => d) env.rest t0 t1

/-- `fetchSensorStatus()`: no GraphQL equivalent exists, so the REST call is
issued whatever the current mode is — the definition never consults
`useGraphQL` or the GraphQL side of the environment. -/
def fetchSensorStatus (s : SysState) (env : FetchEnv) (t0 t1 : Int) : FetchResult :=
  restGet s "/api/sensors/status" countSummary env.rest t0 t1

/-! ## Live update channel (SSE handler in `App.jsx`, `startDataFetch`) -/

/-- JS `xs.slice(-n)`: the last `n` elements (all of them when fewer). -/
def sliceLast (n : Nat) (xs : List Json) : List Json :=
  xs.drop (xs.length - n)

/-- The display state the SSE handler mutates. -/
structure ViewState where
  voltageData : List Json
  powerQuality : List Json
  recentFaults : List Json

/-- The open SSE subscription together with the display state it feeds. -/
structure ChannelState where
  vs : ViewState
  isOpen : Bool

/-- The body of the `message` listener: parse the event data (the parse
outcome is supplied by the environment, `JSON.parse` being a platform
primitive), and on success append each present delta to its ring buffer —
voltage capped at the last 30, power quality at the last 20, faults
newest-first capped at 10.  A parse failure is logged and dropped. -/
def sseOnMessage (vs : ViewState) (parsed : Except String Json) : ViewState :=
  match parsed with
  | .error _ => vs
  | .ok data =>
    let vs1 :=
      if (data.get "voltage").truthy then
        { vs with voltageData := sliceLast 30 (vs.voltageData ++ [data.get "voltage"]) }
      else vs
    let vs2 :=
      if (data.get "power_quality").truthy then
        { vs1 with powerQuality := sliceLast 20 (vs1.powerQuality ++ [data.get "power_quality"]) }
      else vs1
    if (data.get "fault").truthy then
      { vs2 with recentFaults := (data.get "fault" :: vs2.recentFaults).take 10 }
    else vs2

/-- One delivered SSE event: the listener runs only while the subscription
is open, and nothing in it closes the channel. -/
def sseStep (c : ChannelState) (parsed : Except String Json) : ChannelState :=
  if c.isOpen then { c with vs := sseOnMessage c.vs parsed } else c

/-- A sequence of delivered SSE events. -/
def sseRun (c : ChannelState) (msgs : List (Except String Json)) : ChannelState :=
  msgs.foldl sseStep c

/-! ## The documented snake_case REST record shapes

These key lists restate the spec's data-model section (the protocol-agnostic
record shapes); the theorems for the shape-equivalence claim compare the
output of the GraphQL renamings against them. -/

/-- Spec data model: voltage reading — id, sensor id, location, three phase
voltages, frequency, timestamp. -/
def specVoltageKeys : List String :=
  ["id", "sensor_id", "location", "voltage_l1", "voltage_l2", "voltage_l3",
   "frequency", "timestamp"]

/-- Spec data model: power quality metric. -/
def specPowerQualityKeys : List String :=
  ["id", "sensor_id", "location", "thd_voltage", "thd_current", "power_factor",
   "voltage_imbalance", "flicker_severity", "timestamp"]

/-- Spec data model: fault event. -/
def specFaultKeys : List String :=
  ["id", "event_id", "severity", "fault_type", "location", "timestamp",
   "duration_ms", "resolved", "resolved_at"]

/-- Spec data model: fleet statistics. -/
def specStatsKeys : List String :=
  ["total_sensors", "active_sensors", "offline_sensors", "total_faults_24h",
   "quality_violations", "avg_voltage", "avg_power_factor", "min_voltage",
   "max_voltage"]

/-! ## Concrete states used by witnesses -/

/-- A REST-mode fetcher with a configured log sink. -/
def restState : SysState := ⟨⟨some "tok", false, true, 0⟩, ⟨false, none⟩, []⟩

/-- A GraphQL-mode fetcher with an armed client and a configured log sink. -/
def gqlState : SysState := ⟨⟨some "tok", true, true, 0⟩, ⟨true, some "tok"⟩, []⟩

/-- A sample upstream GraphQL voltage reading (camelCase fields). -/
def sampleVoltageReading : Json :=
  Json.obj
    [("id", Json.num 1), ("sensorId", Json.str "S1"), ("location", Json.str "Sub A"),
     ("voltageL1", Json.num 225), ("voltageL2", Json.num 224), ("voltageL3", Json.num 226),
     ("frequency", Json.num 50), ("timestamp", Json.str "2026-01-01T00:00:00Z")]

/-! ## Instrumentation invariants and per-call record counts -/

/-- The ids of the records delivered to the sink are strictly increasing. -/
def idsStrictMono (logs : List LogRecord) : Prop :=
  (logs.map LogRecord.id).Pairwise (· < ·)

/-- Sink invariant maintained by the fetcher: strictly increasing record ids,
all of them no larger than the current sequence counter. -/
def LogInv (s : SysState) : Prop :=
  idsStrictMono s.logs ∧ ∀ r ∈ s.logs, r.id ≤ s.fetcher.requestCounter

/-- Every recorded duration is non-negative. -/
def dursNonneg (logs : List LogRecord) : Prop :=
  ∀ r ∈ logs, 0 ≤ r.duration

/-- How many records one REST-branch call appends: one, except that a network
failure whose own message contains `TOKEN_EXPIRED` or `HTTP` is mistaken by
the `catch` block for an already-logged error and appends none. -/
def restLogCount : RestOutcome → Nat
  | .resp _ _ => 1
  | .netFail msg =>
    if !includesSub msg "TOKEN_EXPIRED" && !includesSub msg "HTTP" then 1 else 0

/-- How many records one GraphQL list-fetch call appends: two on the
invalid-collection path (logged at detection and again in the `catch`),
one otherwise. -/
def gqlListLogCount (g : GqlClientState) (fieldName : String) : GqlOutcome → Nat
  | .ok data =>
    if g.inited then
      if !(Json.get data fieldName).truthy || !(Json.get data fieldName).isArr then 2 else 1
    else 1
  | .err _ _ => 1

/-- How many records one GraphQL `fetchStats` call appends: two when
`sensorStats` is falsy, one otherwise. -/
def gqlStatsLogCount (g : GqlClientState) : GqlOutcome → Nat
  | .ok data =>
    if g.inited then
      if !(Json.get data "sensorStats").truthy then 2 else 1
    else 1
  | .err _ _ => 1

/-- Records appended by one call of a list-returning fetch operation. -/
def fetchListLogCount (s : SysState) (fieldName : String) (env : FetchEnv) : Nat :=
  if s.fetcher.useGraphQL then gqlListLogCount s.gql fieldName env.gqlr
  else restLogCount env.rest

/-- Records appended by one `fetchStats` call. -/
def fetchStatsLogCount (s : SysState) (env : FetchEnv) : Nat :=
  if s.fetcher.useGraphQL then gqlStatsLogCount s.gql env.gqlr
  else restLogCount env.rest

/-! ## Claims -/

/-- C8: the API-mode preference round-trips through the persistent store:
writing the GraphQL preference and reloading restores GraphQL mode, writing
the REST preference restores REST mode, and an empty store (no saved
preference, or the store yields nothing) falls back to the default REST. -/
theorem claim_C8_mode_round_trip :
    loadApiMode (some (savedApiModeString true)) = true ∧
    loadApiMode (some (savedApiModeString false)) = false ∧
    loadApiMode none = false := by
  decide

/-- C10: restoring the persisted preference selects GraphQL mode exactly when
the stored value is the string "graphql"; every other stored value — absent,
"rest", differently cased such as "GraphQL", or arbitrary text — restores
REST mode. -/
theorem claim_C10_exact_string_match :
    (∀ s : String, loadApiMode (some s) = true ↔ s = "graphql") ∧
    loadApiMode none = false ∧
    loadApiMode (some "rest") = false ∧
    loadApiMode (some "GraphQL") = false ∧
    loadApiMode (some "arbitrary text") = false := by
  refine ⟨fun s => ?_, by decide, by decide, by decide, by decide⟩
  simp [loadApiMode]

/-- Witness for C10 at the concrete stored value "graphql". -/
theorem claim_C10_witness : loadApiMode (some "graphql") = true :=
  (claim_C10_exact_string_match.1 "graphql").mpr rfl

/-- C9: a live-update message whose body is not valid JSON is dropped without
closing the channel: the malformed event leaves the state unchanged, the
subscription processes the remaining messages exactly as if the malformed one
had never arrived, and no sequence of messages ever changes whether the
channel is open. -/
theorem claim_C9_malformed_dropped :
    ∀ (c : ChannelState) (e : String) (rest : List (Except String Json)),
      sseStep c (Except.error e) = c ∧
      sseRun c (Except.error e :: rest) = sseRun c rest ∧
      (∀ msgs : List (Except String Json), (sseRun c msgs).isOpen = c.isOpen) := by
  intro c e rest
  have hstep : sseStep c (Except.error e) = c := by
    cases c with
    | mk vs isOpen => cases isOpen <;> simp [sseStep, sseOnMessage]
  refine ⟨hstep, ?_, ?_⟩
  · show List.foldl sseStep c (Except.error e :: rest) = sseRun c rest
    simp [List.foldl, hstep, sseRun]
  · intro msgs
    clear hstep
    induction msgs generalizing c with
    | nil => rfl
    | cons m rest ih =>
      have hopen : (sseStep c m).isOpen = c.isOpen := by
        cases c with
        | mk vs isOpen => cases isOpen <;> simp [sseStep]
      calc (sseRun c (m :: rest)).isOpen
          = (sseRun (sseStep c m) rest).isOpen := rfl
        _ = (sseStep c m).isOpen := ih (sseStep c m)
        _ = c.isOpen := hopen

/-- C5: `fetchSensorStatus` issues an authenticated REST GET to
`/api/sensors/status` in every mode: the issued request is always that REST
request, the call's outcome never depends on the GraphQL side of the
environment, and switching the mode with `setMode` does not change the
returned value. -/
theorem claim_C5_sensor_status_rest_only :
    ∀ (s : SysState) (env : FetchEnv) (t0 t1 : Int),
      (fetchSensorStatus s env t0 t1).issued =
        some ⟨Transport.rest, "/api/sensors/status", "GET",
              some ("Bearer " ++ jsShow s.fetcher.token)⟩ ∧
      (∀ g₁ g₂ : GqlOutcome,
        fetchSensorStatus s ⟨env.rest, g₁⟩ t0 t1 =
        fetchSensorStatus s ⟨env.rest, g₂⟩ t0 t1) ∧
      (∀ b : Bool,
        (fetchSensorStatus (setMode s b) env t0 t1).result =
        (fetchSensorStatus s env t0 t1).result) := by
  intro s env t0 t1
  refine ⟨?_, fun g₁ g₂ => rfl, ?_⟩
  · rcases env with ⟨r, g⟩
    rcases r with ⟨status, body⟩ | ⟨msg⟩ <;>
      simp [fetchSensorStatus, restGet] <;> split_ifs <;> rfl
  · intro b
    rcases env with ⟨r, g⟩
    cases b <;> rcases r with ⟨status, body⟩ | ⟨msg⟩ <;>
      simp [fetchSensorStatus, restGet, setMode] <;> split_ifs <;> rfl

/-- C6: in REST mode `fetchFaults` targets the fixed `/api/faults/recent`
endpoint with no query parameters, so its entire outcome is identical for
any two pairs of `limit`/`severity` arguments against the same upstream
response. -/
theorem claim_C6_rest_faults_ignores_args :
    ∀ (s : SysState) (env : FetchEnv) (limit limit' : Int)
      (sev sev' : Option String) (t0 t1 : Int),
      s.fetcher.useGraphQL = false →
      fetchFaults s limit sev env t0 t1 = fetchFaults s limit' sev' env t0 t1 ∧
      (fetchFaults s limit sev env t0 t1).issued =
        some ⟨Transport.rest, "/api/faults/recent", "GET",
              some ("Bearer " ++ jsShow s.fetcher.token)⟩ := by
  intro s env l l' sv sv' t0 t1 h
  constructor
  · simp [fetchFaults, h]
  · rcases env with ⟨r, g⟩
    rcases r with ⟨status, body⟩ | ⟨msg⟩ <;>
      simp [fetchFaults, h, restGet] <;> split_ifs <;> rfl

/-- Witness for C6: with a concrete 200 response, `fetchFaults` in REST mode
returns the same outcome for (10, null) and (99, "high"). -/
theorem claim_C6_witness :
    fetchFaults restState 10 none ⟨RestOutcome.resp 200 (Json.arr []), GqlOutcome.ok Json.null⟩ 0 5 =
    fetchFaults restState 99 (some "high") ⟨RestOutcome.resp 200 (Json.arr []), GqlOutcome.ok Json.null⟩ 0 5 :=
  (claim_C6_rest_faults_ignores_args restState
    ⟨RestOutcome.resp 200 (Json.arr []), GqlOutcome.ok Json.null⟩ 10 99 none (some "high") 0 5 rfl).1

/-- An array value is truthy (there is no falsy array in JS). -/
theorem truthy_of_isArr {j : Json} (h : j.isArr = true) : j.truthy = true := by
  cases j <;> simp [Json.isArr, Json.truthy] at h ⊢

/-- C2: a REST response with HTTP status 401 and a GraphQL call whose
upstream response status is 401 both fail with the identical `TOKEN_EXPIRED`
sentinel on every fetch operation, whatever the response body or the raw
transport error message was. -/
theorem claim_C2_token_expired_uniform :
    ∀ (s : SysState) (env : FetchEnv) (limit : Int) (sid sev : Option String)
      (body : Json) (rawMsg : String) (t0 t1 : Int),
      (s.fetcher.useGraphQL = false →
        (fetchVoltage s limit sid ⟨RestOutcome.resp 401 body, env.gqlr⟩ t0 t1).result =
          Except.error "TOKEN_EXPIRED" ∧
        (fetchPowerQuality s limit sid ⟨RestOutcome.resp 401 body, env.gqlr⟩ t0 t1).result =
          Except.error "TOKEN_EXPIRED" ∧
        (fetchFaults s limit sev ⟨RestOutcome.resp 401 body, env.gqlr⟩ t0 t1).result =
          Except.error "TOKEN_EXPIRED" ∧
        (fetchStats s ⟨RestOutcome.resp 401 body, env.gqlr⟩ t0 t1).result =
          Except.error "TOKEN_EXPIRED") ∧
      (s.fetcher.useGraphQL = true → s.gql.inited = true →
        (fetchVoltage s limit sid ⟨env.rest, GqlOutcome.err (some 401) rawMsg⟩ t0 t1).result =
          Except.error "TOKEN_EXPIRED" ∧
        (fetchPowerQuality s limit sid ⟨env.rest, GqlOutcome.err (some 401) rawMsg⟩ t0 t1).result =
          Except.error "TOKEN_EXPIRED" ∧
        (fetchFaults s limit sev ⟨env.rest, GqlOutcome.err (some 401) rawMsg⟩ t0 t1).result =
          Except.error "TOKEN_EXPIRED" ∧
        (fetchStats s ⟨env.rest, GqlOutcome.err (some 401) rawMsg⟩ t0 t1).result =
          Except.error "TOKEN_EXPIRED") ∧
      (fetchSensorStatus s ⟨RestOutcome.resp 401 body, env.gqlr⟩ t0 t1).result =
        Except.error "TOKEN_EXPIRED" := by
  intro s env limit sid sev body rawMsg t0 t1
  refine ⟨fun h => ⟨?_, ?_, ?_, ?_⟩, fun h h2 => ⟨?_, ?_, ?_, ?_⟩, ?_⟩
  · simp [fetchVoltage, restGet, h]
  · simp [fetchPowerQuality, restGet, h]
  · simp [fetchFaults, restGet, h]
  · simp [fetchStats, restGet, h]
  · simp [fetchVoltage, gqlListFetch, gqlRequest, h, h2]
  · simp [fetchPowerQuality, gqlListFetch, gqlRequest, h, h2]
  · simp [fetchFaults, gqlListFetch, gqlRequest, h, h2]
  · simp [fetchStats, gqlRequest, h, h2]
  · simp [fetchSensorStatus, restGet]

/-- Witness for C2: a concrete GraphQL 401 with raw message "Unauthorized"
surfaces as `TOKEN_EXPIRED`. -/
theorem claim_C2_witness :
    (fetchVoltage gqlState 30 none
      ⟨RestOutcome.resp 200 Json.null, GqlOutcome.err (some 401) "Unauthorized"⟩ 0 5).result =
      Except.error "TOKEN_EXPIRED" :=
  ((claim_C2_token_expired_uniform gqlState
      ⟨RestOutcome.resp 200 Json.null, GqlOutcome.err (some 401) "Unauthorized"⟩
      30 none none Json.null "Unauthorized" 0 5).2.1 rfl rfl).1

/-- C3: in GraphQL mode, when the collection field of the response is absent
or not an array, `fetchVoltage`/`fetchPowerQuality` fail with the
invalid-data error and the per-element renaming never runs (the outcome does
not depend on the element transform); the `.map` result is produced exactly
when the collection is an array.  The code's guard `!coll || !Array.isArray(coll)`
is equivalent to the collection not being an array. -/
theorem claim_C3_invalid_data_guard :
    ∀ (s : SysState) (limit : Int) (sid : Option String) (env : FetchEnv)
      (data : Json) (t0 t1 : Int),
      s.fetcher.useGraphQL = true → s.gql.inited = true →
      (((data.get "voltageReadings").isArr = false →
          (fetchVoltage s limit sid ⟨env.rest, GqlOutcome.ok data⟩ t0 t1).result =
            Except.error "Invalid voltage data received") ∧
       ((data.get "voltageReadings").isArr = true →
          (fetchVoltage s limit sid ⟨env.rest, GqlOutcome.ok data⟩ t0 t1).result =
            Except.ok (Json.arr ((data.get "voltageReadings").asArr.map mapVoltageReading)))) ∧
      (((data.get "powerQuality").isArr = false →
          (fetchPowerQuality s limit sid ⟨env.rest, GqlOutcome.ok data⟩ t0 t1).result =
            Except.error "Invalid power quality data received") ∧
       ((data.get "powerQuality").isArr = true →
          (fetchPowerQuality s limit sid ⟨env.rest, GqlOutcome.ok data⟩ t0 t1).result =
            Except.ok (Json.arr ((data.get "powerQuality").asArr.map mapPowerQualityMetric)))) ∧
      (∀ (fieldName msg : String) (rd : Json) (f g : Json → Json),
        (data.get fieldName).isArr = false →
        gqlListFetch s fieldName msg rd f (GqlOutcome.ok data) t0 t1 =
        gqlListFetch s fieldName msg rd g (GqlOutcome.ok data) t0 t1) ∧
      (∀ j : Json, (!j.truthy || !j.isArr) = !j.isArr) := by
  intro s limit sid env data t0 t1 h h2
  refine ⟨⟨fun hna => ?_, fun harr => ?_⟩, ⟨fun hna => ?_, fun harr => ?_⟩,
          fun fieldName msg rd f g hna => ?_, fun j => ?_⟩
  · simp [fetchVoltage, gqlListFetch, gqlRequest, h, h2, hna]
  · simp [fetchVoltage, gqlListFetch, gqlRequest, h, h2, harr, truthy_of_isArr harr]
  · simp [fetchPowerQuality, gqlListFetch, gqlRequest, h, h2, hna]
  · simp [fetchPowerQuality, gqlListFetch, gqlRequest, h, h2, harr, truthy_of_isArr harr]
  · simp [gqlListFetch, gqlRequest, h2, hna]
  · cases j <;> simp [Json.truthy, Json.isArr]

/-- Witness for C3: a response whose `voltageReadings` field is `null`
fails with the invalid-data error. -/
theorem claim_C3_witness :
    (fetchVoltage gqlState 30 none
      ⟨RestOutcome.resp 200 Json.null, GqlOutcome.ok (Json.obj [("voltageReadings", Json.null)])⟩
      0 5).result = Except.error "Invalid voltage data received" :=
  ((claim_C3_invalid_data_guard gqlState 30 none
      ⟨RestOutcome.resp 200 Json.null, GqlOutcome.ok (Json.obj [("voltageReadings", Json.null)])⟩
      (Json.obj [("voltageReadings", Json.null)]) 0 5 rfl rfl).1.1 rfl)

/-- `slice(-n)` keeps `min length n` elements. -/
theorem length_sliceLast (n : Nat) (xs : List Json) :
    (sliceLast n xs).length = min xs.length n := by
  simp [sliceLast]
  omega

/-- C7: an inbound envelope with a truthy voltage delta appends exactly that
delta to the voltage ring buffer, the buffer is the last-30 window of the
appended sequence (so it never exceeds 30 entries: below the cap it grows by
one, at the cap the oldest entry is evicted), and injecting 35 voltage
messages into an empty buffer leaves exactly the 30 most recent entries. -/
theorem claim_C7_voltage_ring_buffer :
    ∀ (c : ChannelState) (data v : Json),
      c.isOpen = true →
      data.get "voltage" = v →
      v.truthy = true →
      ((sseStep c (Except.ok data)).vs.voltageData = sliceLast 30 (c.vs.voltageData ++ [v]) ∧
       (sseStep c (Except.ok data)).vs.voltageData.length = min (c.vs.voltageData.length + 1) 30 ∧
       (sseStep c (Except.ok data)).vs.voltageData.length ≤ 30 ∧
       (c.vs.voltageData.length < 30 →
         (sseStep c (Except.ok data)).vs.voltageData = c.vs.voltageData ++ [v]) ∧
       (c.vs.voltageData.length = 30 →
         (sseStep c (Except.ok data)).vs.voltageData = c.vs.voltageData.tail ++ [v])) ∧
      (sseRun ⟨⟨[], [], []⟩, true⟩
          ((List.range 35).map fun i => Except.ok (Json.obj [("voltage", Json.num i)]))).vs.voltageData =
        ((List.range 35).drop 5).map fun i => Json.num i := by
  intro c data v hopen hv ht
  have hmain : (sseStep c (Except.ok data)).vs.voltageData =
      sliceLast 30 (c.vs.voltageData ++ [v]) := by
    cases c with
    | mk vs isOpen =>
      simp only [ChannelState.isOpen] at hopen
      subst hopen
      subst hv
      simp only [sseStep, if_true, sseOnMessage, ht, if_pos]
      split_ifs <;> rfl
  refine ⟨⟨hmain, ?_, ?_, ?_, ?_⟩, ?_⟩
  · rw [hmain, length_sliceLast]
    simp
  · rw [hmain, length_sliceLast]
    omega
  · intro hlt
    rw [hmain]
    unfold sliceLast
    have h0 : (c.vs.voltageData ++ [v]).length - 30 = 0 := by
      simp
      omega
    rw [h0, List.drop_zero]
  · intro heq
    rw [hmain]
    unfold sliceLast
    have h1 : (c.vs.voltageData ++ [v]).length - 30 = 1 := by
      simp [heq]
    rw [h1, List.drop_append_of_le_length (by omega), List.drop_one]
  · rfl

/-- Witness for C7: one voltage message appended to an empty buffer. -/
theorem claim_C7_witness :
    (sseStep ⟨⟨[], [], []⟩, true⟩ (Except.ok (Json.obj [("voltage", Json.num 1)]))).vs.voltageData =
      [Json.num 1] := by
  have h := claim_C7_voltage_ring_buffer ⟨⟨[], [], []⟩, true⟩
    (Json.obj [("voltage", Json.num 1)]) (Json.num 1) rfl rfl rfl
  simpa using h.1.2.2.2.1 (by simp)

/-- Each normalized voltage record carries exactly the documented keys. -/
theorem mapVoltageReading_keys (r : Json) :
    (mapVoltageReading r).keys = specVoltageKeys := rfl

/-- Each normalized power-quality record carries exactly the documented keys. -/
theorem mapPowerQualityMetric_keys (r : Json) :
    (mapPowerQualityMetric r).keys = specPowerQualityKeys := rfl

/-- Each normalized fault record carries exactly the documented keys. -/
theorem mapFaultEvent_keys (r : Json) :
    (mapFaultEvent r).keys = specFaultKeys := rfl

/-- The normalized stats record carries exactly the documented keys. -/
theorem mapSensorStats_keys (st : Json) :
    (mapSensorStats st).keys = specStatsKeys := rfl

/-- C1: shape equivalence across transports.  In GraphQL mode each returned
record is the per-resource renaming of an upstream element and carries
exactly the documented snake_case REST keys; in REST mode a 2xx body is
returned unchanged; hence whenever the REST upstream serves records in the
documented snake_case shape, the records returned by the two transports have
identical field-name lists and the caller cannot tell them apart. -/
theorem claim_C1_shape_equivalence :
    ∀ (s : SysState) (limit : Int) (sid sev : Option String) (env : FetchEnv)
      (data body : Json) (rs : List Json) (t0 t1 : Int),
      (s.fetcher.useGraphQL = true → s.gql.inited = true →
        (data.get "voltageReadings" = Json.arr rs →
          (fetchVoltage s limit sid ⟨env.rest, GqlOutcome.ok data⟩ t0 t1).result =
            Except.ok (Json.arr (rs.map mapVoltageReading)) ∧
          rs.map (fun r => (mapVoltageReading r).keys) =
            List.replicate rs.length specVoltageKeys) ∧
        (data.get "powerQuality" = Json.arr rs →
          (fetchPowerQuality s limit sid ⟨env.rest, GqlOutcome.ok data⟩ t0 t1).result =
            Except.ok (Json.arr (rs.map mapPowerQualityMetric)) ∧
          rs.map (fun r => (mapPowerQualityMetric r).keys) =
            List.replicate rs.length specPowerQualityKeys) ∧
        (data.get "faultEvents" = Json.arr rs →
          (fetchFaults s limit sev ⟨env.rest, GqlOutcome.ok data⟩ t0 t1).result =
            Except.ok (Json.arr (rs.map mapFaultEvent)) ∧
          rs.map (fun r => (mapFaultEvent r).keys) =
            List.replicate rs.length specFaultKeys) ∧
        ((data.get "sensorStats").truthy = true →
          (fetchStats s ⟨env.rest, GqlOutcome.ok data⟩ t0 t1).result =
            Except.ok (mapSensorStats (data.get "sensorStats")) ∧
          (mapSensorStats (data.get "sensorStats")).keys = specStatsKeys)) ∧
      (s.fetcher.useGraphQL = false →
        (fetchVoltage s limit sid ⟨RestOutcome.resp 200 body, env.gqlr⟩ t0 t1).result =
          Except.ok body ∧
        (fetchPowerQuality s limit sid ⟨RestOutcome.resp 200 body, env.gqlr⟩ t0 t1).result =
          Except.ok body ∧
        (fetchFaults s limit sev ⟨RestOutcome.resp 200 body, env.gqlr⟩ t0 t1).result =
          Except.ok body ∧
        (fetchStats s ⟨RestOutcome.resp 200 body, env.gqlr⟩ t0 t1).result =
          Except.ok body) ∧
      (∀ r b : Json, b.keys = specVoltageKeys → (mapVoltageReading r).keys = b.keys) ∧
      (∀ r b : Json, b.keys = specPowerQualityKeys → (mapPowerQualityMetric r).keys = b.keys) ∧
      (∀ r b : Json, b.keys = specFaultKeys → (mapFaultEvent r).keys = b.keys) ∧
      (∀ st b : Json, b.keys = specStatsKeys → (mapSensorStats st).keys = b.keys) := by
  intro s limit sid sev env data body rs t0 t1
  refine ⟨fun h h2 => ⟨fun hv => ⟨?_, ?_⟩, fun hp => ⟨?_, ?_⟩, fun hf => ⟨?_, ?_⟩,
            fun hst => ⟨?_, ?_⟩⟩,
          fun h => ⟨?_, ?_, ?_, ?_⟩, ?_, ?_, ?_, ?_⟩
  · simp [fetchVoltage, gqlListFetch, gqlRequest, h, h2, hv,
      Json.truthy, Json.isArr, Json.asArr]
  · simp [mapVoltageReading_keys, List.map_const']
  · simp [fetchPowerQuality, gqlListFetch, gqlRequest, h, h2, hp,
      Json.truthy, Json.isArr, Json.asArr]
  · simp [mapPowerQualityMetric_keys, List.map_const']
  · simp [fetchFaults, gqlListFetch, gqlRequest, h, h2, hf,
      Json.truthy, Json.isArr, Json.asArr]
  · simp [mapFaultEvent_keys, List.map_const']
  · simp [fetchStats, gqlRequest, h, h2, hst]
  · exact mapSensorStats_keys _
  · simp [fetchVoltage, restGet, h]
  · simp [fetchPowerQuality, restGet, h]
  · simp [fetchFaults, restGet, h]
  · simp [fetchStats, restGet, h]
  · intro r b hb
    rw [hb]
    exact mapVoltageReading_keys r
  · intro r b hb
    rw [hb]
    exact mapPowerQualityMetric_keys r
  · intro r b hb
    rw [hb]
    exact mapFaultEvent_keys r
  · intro st b hb
    rw [hb]
    exact mapSensorStats_keys st

/-- Witness for C1: a concrete GraphQL voltage response is normalized to the
renamed records. -/
theorem claim_C1_witness :
    (fetchVoltage gqlState 30 none
      ⟨RestOutcome.resp 200 Json.null,
       GqlOutcome.ok (Json.obj [("voltageReadings", Json.arr [sampleVoltageReading])])⟩
      0 5).result = Except.ok (Json.arr ([sampleVoltageReading].map mapVoltageReading)) :=
  (((claim_C1_shape_equivalence gqlState 30 none none
      ⟨RestOutcome.resp 200 Json.null,
       GqlOutcome.ok (Json.obj [("voltageReadings", Json.arr [sampleVoltageReading])])⟩
      (Json.obj [("voltageReadings", Json.arr [sampleVoltageReading])]) Json.null
      [sampleVoltageReading] 0 5).1 rfl rfl).1 rfl).1

/-- One `log` call preserves the sink invariant and duration non-negativity,
leaves the callback flag unchanged, and — when a callback is configured —
appends exactly the one record with the next sequence id. -/
theorem logOp_good (s : SysState) (e m st : String) (rq rs : Json)
    (err : Option String) (d n : Int) (hd : 0 ≤ d)
    (hinv : LogInv s) (hdur : dursNonneg s.logs) :
    LogInv (logOp s e m st rq rs err d n) ∧
    dursNonneg (logOp s e m st rq rs err d n).logs ∧
    (logOp s e m st rq rs err d n).fetcher.hasLogCallback = s.fetcher.hasLogCallback ∧
    (s.fetcher.hasLogCallback = true →
      (logOp s e m st rq rs err d n).logs =
        s.logs ++ [⟨s.fetcher.requestCounter + 1, e, m, st, rq, rs, err, d, n⟩]) := by
  by_cases hcb : s.fetcher.hasLogCallback = true
  · have hlogs : (logOp s e m st rq rs err d n).logs =
        s.logs ++ [⟨s.fetcher.requestCounter + 1, e, m, st, rq, rs, err, d, n⟩] := by
      simp [logOp, hcb]
    have hctr : (logOp s e m st rq rs err d n).fetcher.requestCounter =
        s.fetcher.requestCounter + 1 := by
      simp [logOp, hcb]
    have hcb' : (logOp s e m st rq rs err d n).fetcher.hasLogCallback =
        s.fetcher.hasLogCallback := by
      simp [logOp, hcb]
    refine ⟨⟨?_, ?_⟩, ?_, hcb', fun _ => hlogs⟩
    · unfold idsStrictMono
      rw [hlogs, List.map_append, List.pairwise_append]
      refine ⟨hinv.1, by simp, ?_⟩
      intro a ha b hb
      simp only [List.map_cons, List.map_nil, List.mem_singleton] at hb
      subst hb
      simp only [List.mem_map] at ha
      obtain ⟨r, hr, hid⟩ := ha
      have := hinv.2 r hr
      omega
    · intro r hr
      rw [hlogs] at hr
      rw [hctr]
      rcases List.mem_append.mp hr with h1 | h2
      · have := hinv.2 r h1
        omega
      · simp only [List.mem_singleton] at h2
        subst h2
        simp
    · intro r hr
      rw [hlogs] at hr
      rcases List.mem_append.mp hr with h1 | h2
      · exact hdur r h1
      · simp only [List.mem_singleton] at h2
        subst h2
        exact hd
  · have hid : logOp s e m st rq rs err d n = s := by
      simp [logOp, hcb]
    rw [hid]
    exact ⟨hinv, hdur, rfl, fun hh => absurd hh hcb⟩

/-- One REST-branch call preserves the sink invariant and appends exactly
`restLogCount env` records. -/
theorem restGet_log_count (s : SysState) (url : String) (summary : Json → Json)
    (env : RestOutcome) (t0 t1 : Int)
    (hcb : s.fetcher.hasLogCallback = true) (ht : t0 ≤ t1)
    (hinv : LogInv s) (hdur : dursNonneg s.logs) :
    LogInv (restGet s url summary env t0 t1).sys ∧
    dursNonneg (restGet s url summary env t0 t1).sys.logs ∧
    ∃ recs : List LogRecord,
      (restGet s url summary env t0 t1).sys.logs = s.logs ++ recs ∧
      recs.length = restLogCount env := by
  have hd : (0:Int) ≤ t1 - t0 := by omega
  rcases env with ⟨status, body⟩ | ⟨msg⟩
  · simp only [restGet]
    split_ifs with h1 h2
    · have L := logOp_good s url "GET" "error" .null .null (some "TOKEN_EXPIRED")
        (t1 - t0) t1 hd hinv hdur
      exact ⟨L.1, L.2.1, [_], L.2.2.2 hcb, rfl⟩
    · have L := logOp_good s url "GET" "error" .null .null
        (some ("HTTP " ++ toString status)) (t1 - t0) t1 hd hinv hdur
      exact ⟨L.1, L.2.1, [_], L.2.2.2 hcb, rfl⟩
    · have L := logOp_good s url "GET" "success" .null (summary body) none
        (t1 - t0) t1 hd hinv hdur
      exact ⟨L.1, L.2.1, [_], L.2.2.2 hcb, rfl⟩
  · simp only [restGet]
    split_ifs with h1
    · have L := logOp_good s url "GET" "error" .null .null (some msg)
        (t1 - t0) t1 hd hinv hdur
      refine ⟨L.1, L.2.1, [_], L.2.2.2 hcb, ?_⟩
      simp [restLogCount, h1]
    · refine ⟨hinv, hdur, [], by simp, ?_⟩
      simp only [restLogCount]
      rw [if_neg h1]
      rfl

/-- One GraphQL list-fetch call preserves the sink invariant and appends
exactly `gqlListLogCount s.gql fieldName env` records. -/
theorem gqlListFetch_log_count (s : SysState) (fieldName invalidMsg : String)
    (reqData : Json) (mapRec : Json → Json) (env : GqlOutcome) (t0 t1 : Int)
    (hcb : s.fetcher.hasLogCallback = true) (ht : t0 ≤ t1)
    (hinv : LogInv s) (hdur : dursNonneg s.logs) :
    LogInv (gqlListFetch s fieldName invalidMsg reqData mapRec env t0 t1).sys ∧
    dursNonneg (gqlListFetch s fieldName invalidMsg reqData mapRec env t0 t1).sys.logs ∧
    ∃ recs : List LogRecord,
      (gqlListFetch s fieldName invalidMsg reqData mapRec env t0 t1).sys.logs =
        s.logs ++ recs ∧
      recs.length = gqlListLogCount s.gql fieldName env := by
  have hd : (0:Int) ≤ t1 - t0 := by omega
  by_cases hin : s.gql.inited = true
  · rcases env with ⟨data⟩ | ⟨status, msg⟩
    · by_cases hg : (!(Json.get data fieldName).truthy || !(Json.get data fieldName).isArr) = true
      · simp only [gqlListFetch, gqlRequest, hin, if_true, hg]
        have L1 := logOp_good s "/graphql" "GraphQL" "error" reqData .null
          (some invalidMsg) (t1 - t0) t1 hd hinv hdur
        have hcb1 : (logOp s "/graphql" "GraphQL" "error" reqData .null
            (some invalidMsg) (t1 - t0) t1).fetcher.hasLogCallback = true := by
          rw [L1.2.2.1]
          exact hcb
        have L2 := logOp_good (logOp s "/graphql" "GraphQL" "error" reqData .null
            (some invalidMsg) (t1 - t0) t1) "/graphql" "GraphQL" "error" reqData .null
          (some invalidMsg) (t1 - t0) t1 hd L1.1 L1.2.1
        refine ⟨L2.1, L2.2.1,
          [⟨s.fetcher.requestCounter + 1, "/graphql", "GraphQL", "error", reqData, .null,
            some invalidMsg, t1 - t0, t1⟩,
           ⟨(logOp s "/graphql" "GraphQL" "error" reqData .null (some invalidMsg)
               (t1 - t0) t1).fetcher.requestCounter + 1, "/graphql", "GraphQL", "error",
            reqData, .null, some invalidMsg, t1 - t0, t1⟩], ?_, ?_⟩
        · rw [L2.2.2.2 hcb1, L1.2.2.2 hcb, List.append_assoc]
          rfl
        · simp [gqlListLogCount, hin, hg]
      · simp only [gqlListFetch, gqlRequest, hin, if_true, hg]
        have L := logOp_good s "/graphql" "GraphQL" "success" reqData
          (Json.obj [("count",
            Json.num (List.length (List.map mapRec (Json.asArr (Json.get data fieldName)))))])
          none (t1 - t0) t1 hd hinv hdur
        refine ⟨L.1, L.2.1, [_], L.2.2.2 hcb, ?_⟩
        simp [gqlListLogCount, hin, hg]
    · by_cases hst : (status == some 401) = true
      · simp only [gqlListFetch, gqlRequest, hin, if_true, hst]
        have L := logOp_good s "/graphql" "GraphQL" "error" reqData .null
          (some "TOKEN_EXPIRED") (t1 - t0) t1 hd hinv hdur
        exact ⟨L.1, L.2.1, [_], L.2.2.2 hcb, rfl⟩
      · simp only [gqlListFetch, gqlRequest, hin, if_true, hst]
        have L := logOp_good s "/graphql" "GraphQL" "error" reqData .null
          (some msg) (t1 - t0) t1 hd hinv hdur
        exact ⟨L.1, L.2.1, [_], L.2.2.2 hcb, rfl⟩
  · have hin' : s.gql.inited = false := by
      simpa using hin
    have hred : gqlListFetch s fieldName invalidMsg reqData mapRec env t0 t1 =
        ⟨Except.error "GraphQL client not initialized. Call setToken() first.",
         logOp s "/graphql" "GraphQL" "error" reqData .null
           (some "GraphQL client not initialized. Call setToken() first.") (t1 - t0) t1,
         none⟩ := by
      simp [gqlListFetch, gqlRequest, hin']
    rw [hred]
    have L := logOp_good s "/graphql" "GraphQL" "error" reqData .null
      (some "GraphQL client not initialized. Call setToken() first.")
      (t1 - t0) t1 hd hinv hdur
    refine ⟨L.1, L.2.1,
      [⟨s.fetcher.requestCounter + 1, "/graphql", "GraphQL", "error", reqData, .null,
        some "GraphQL client not initialized. Call setToken() first.", t1 - t0, t1⟩],
      L.2.2.2 hcb, ?_⟩
    rcases env <;> simp [gqlListLogCount, hin']

/-- One `fetchStats` call preserves the sink invariant and appends exactly
`fetchStatsLogCount s env` records. -/
theorem fetchStats_log_count (s : SysState) (env : FetchEnv) (t0 t1 : Int)
    (hcb : s.fetcher.hasLogCallback = true) (ht : t0 ≤ t1)
    (hinv : LogInv s) (hdur : dursNonneg s.logs) :
    LogInv (fetchStats s env t0 t1).sys ∧
    dursNonneg (fetchStats s env t0 t1).sys.logs ∧
    ∃ recs : List LogRecord,
      (fetchStats s env t0 t1).sys.logs = s.logs ++ recs ∧
      recs.length = fetchStatsLogCount s env := by
  have hd : (0:Int) ≤ t1 - t0 := by omega
  by_cases hm : s.fetcher.useGraphQL = true
  · by_cases hin : s.gql.inited = true
    · rcases env with ⟨renv, genv⟩
      rcases genv with ⟨data⟩ | ⟨status, msg⟩
      · by_cases hg : (!(Json.get data "sensorStats").truthy) = true
        · simp only [fetchStats, hm, if_true, gqlRequest, hin, hg]
          have L1 := logOp_good s "/graphql" "GraphQL" "error"
            (Json.obj [("query", Json.str "sensorStats")]) .null
            (some "Invalid sensor stats data received") (t1 - t0) t1 hd hinv hdur
          have hcb1 : (logOp s "/graphql" "GraphQL" "error"
              (Json.obj [("query", Json.str "sensorStats")]) .null
              (some "Invalid sensor stats data received") (t1 - t0) t1).fetcher.hasLogCallback =
              true := by
            rw [L1.2.2.1]
            exact hcb
          have L2 := logOp_good (logOp s "/graphql" "GraphQL" "error"
              (Json.obj [("query", Json.str "sensorStats")]) .null
              (some "Invalid sensor stats data received") (t1 - t0) t1)
            "/graphql" "GraphQL" "error"
            (Json.obj [("query", Json.str "sensorStats")]) .null
            (some "Invalid sensor stats data received") (t1 - t0) t1 hd L1.1 L1.2.1
          refine ⟨L2.1, L2.2.1,
            [⟨s.fetcher.requestCounter + 1, "/graphql", "GraphQL", "error",
              Json.obj [("query", Json.str "sensorStats")], .null,
              some "Invalid sensor stats data received", t1 - t0, t1⟩,
             ⟨(logOp s "/graphql" "GraphQL" "error"
                 (Json.obj [("query", Json.str "sensorStats")]) .null
                 (some "Invalid sensor stats data received") (t1 - t0) t1).fetcher.requestCounter + 1,
              "/graphql", "GraphQL", "error",
              Json.obj [("query", Json.str "sensorStats")], .null,
              some "Invalid sensor stats data received", t1 - t0, t1⟩], ?_, ?_⟩
          · rw [L2.2.2.2 hcb1, L1.2.2.2 hcb, List.append_assoc]
            rfl
          · simp [fetchStatsLogCount, gqlStatsLogCount, hm, hin, hg]
        · simp only [fetchStats, hm, if_true, gqlRequest, hin, hg]
          have L := logOp_good s "/graphql" "GraphQL" "success"
            (Json.obj [("query", Json.str "sensorStats")])
            (mapSensorStats (Json.get data "sensorStats")) none (t1 - t0) t1 hd hinv hdur
          refine ⟨L.1, L.2.1, [_], L.2.2.2 hcb, ?_⟩
          simp [fetchStatsLogCount, gqlStatsLogCount, hm, hin, hg]
      · by_cases hst : (status == some 401) = true
        · simp only [fetchStats, hm, if_true, gqlRequest, hin, hst]
          have L := logOp_good s "/graphql" "GraphQL" "error"
            (Json.obj [("query", Json.str "sensorStats")]) .null
            (some "TOKEN_EXPIRED") (t1 - t0) t1 hd hinv hdur
          refine ⟨L.1, L.2.1, [_], L.2.2.2 hcb, ?_⟩
          simp [fetchStatsLogCount, gqlStatsLogCount, hm]
        · simp only [fetchStats, hm, if_true, gqlRequest, hin, hst]
          have L := logOp_good s "/graphql" "GraphQL" "error"
            (Json.obj [("query", Json.str "sensorStats")]) .null
            (some msg) (t1 - t0) t1 hd hinv hdur
          refine ⟨L.1, L.2.1, [_], L.2.2.2 hcb, ?_⟩
          simp [fetchStatsLogCount, gqlStatsLogCount, hm]
    · have hin' : s.gql.inited = false := by
        simpa using hin
      have hred : fetchStats s env t0 t1 =
          ⟨Except.error "GraphQL client not initialized. Call setToken() first.",
           logOp s "/graphql" "GraphQL" "error"
             (Json.obj [("query", Json.str "sensorStats")]) .null
             (some "GraphQL client not initialized. Call setToken() first.") (t1 - t0) t1,
           none⟩ := by
        simp [fetchStats, hm, gqlRequest, hin']
      rw [hred]
      have L := logOp_good s "/graphql" "GraphQL" "error"
        (Json.obj [("query", Json.str "sensorStats")]) .null
        (some "GraphQL client not initialized. Call setToken() first.")
        (t1 - t0) t1 hd hinv hdur
      refine ⟨L.1, L.2.1,
        [⟨s.fetcher.requestCounter + 1, "/graphql", "GraphQL", "error",
          Json.obj [("query", Json.str "sensorStats")], .null,
          some "GraphQL client not initialized. Call setToken() first.", t1 - t0, t1⟩],
        L.2.2.2 hcb, ?_⟩
      rcases env with ⟨renv, genv⟩
      rcases genv <;> simp [fetchStatsLogCount, gqlStatsLogCount, hm, hin']
  · have hm' : s.fetcher.useGraphQL = false := by
      simpa using hm
    have hred : fetchStats s env t0 t1 =
        restGet s "/api/sensors/stats" (fun d => d) env.rest t0 t1 := by
      simp [fetchStats, hm']
    rw [hred]
    have R := restGet_log_count s "/api/sensors/stats" (fun d => d) env.rest t0 t1
      hcb ht hinv hdur
    obtain ⟨recs, he, hl⟩ := R.2.2
    refine ⟨R.1, R.2.1, recs, he, ?_⟩
    rw [hl]
    simp [fetchStatsLogCount, hm']

/-- The common mode dispatch of the three list-returning fetch operations
preserves the sink invariant and appends `fetchListLogCount` records. -/
theorem listOp_log_count (s : SysState) (fieldName invalidMsg url : String)
    (reqData : Json) (mapRec : Json → Json) (summary : Json → Json)
    (env : FetchEnv) (t0 t1 : Int)
    (hcb : s.fetcher.hasLogCallback = true) (ht : t0 ≤ t1)
    (hinv : LogInv s) (hdur : dursNonneg s.logs) :
    LogInv (if s.fetcher.useGraphQL then
        gqlListFetch s fieldName invalidMsg reqData mapRec env.gqlr t0 t1
      else restGet s url summary env.rest t0 t1).sys ∧
    dursNonneg (if s.fetcher.useGraphQL then
        gqlListFetch s fieldName invalidMsg reqData mapRec env.gqlr t0 t1
      else restGet s url summary env.rest t0 t1).sys.logs ∧
    ∃ recs : List LogRecord,
      (if s.fetcher.useGraphQL then
          gqlListFetch s fieldName invalidMsg reqData mapRec env.gqlr t0 t1
        else restGet s url summary env.rest t0 t1).sys.logs = s.logs ++ recs ∧
      recs.length = fetchListLogCount s fieldName env := by
  by_cases hm : s.fetcher.useGraphQL = true
  · rw [if_pos hm]
    have G := gqlListFetch_log_count s fieldName invalidMsg reqData mapRec env.gqlr t0 t1
      hcb ht hinv hdur
    obtain ⟨recs, he, hl⟩ := G.2.2
    refine ⟨G.1, G.2.1, recs, he, ?_⟩
    rw [hl]
    simp [fetchListLogCount, hm]
  · have hm' : s.fetcher.useGraphQL = false := by
      simpa using hm
    rw [if_neg hm]
    have R := restGet_log_count s url summary env.rest t0 t1 hcb ht hinv hdur
    obtain ⟨recs, he, hl⟩ := R.2.2
    refine ⟨R.1, R.2.1, recs, he, ?_⟩
    rw [hl]
    simp [fetchListLogCount, hm']

/-- C4 counterexample: one single GraphQL-mode `fetchVoltage` call against a
response with no `voltageReadings` collection starts from an empty sink and
leaves TWO records in it — not exactly one as claimed (the invalid-data error
is logged at detection and again by the error handler). -/
theorem claim_C4_counterexample :
    gqlState.logs.length = 0 ∧
    (fetchVoltage gqlState 30 none
      ⟨RestOutcome.resp 200 Json.null, GqlOutcome.ok (Json.obj [])⟩ 0 5).sys.logs.length = 2 :=
  ⟨rfl, rfl⟩

/-- C4 (amended): when a log sink is configured and the clock does not run
backwards, every call to any of the five fetch operations appends records to
the sink while preserving strictly increasing ids and non-negative durations;
the number appended is given exactly by `fetchListLogCount` /
`fetchStatsLogCount` / `restLogCount` — one on every path except that the
GraphQL invalid-data path appends two (detection plus error handler) and a
REST network failure whose message itself contains `TOKEN_EXPIRED` or `HTTP`
appends none — and is never more than two. -/
theorem claim_C4_amended :
    ∀ (s : SysState) (t0 t1 : Int),
      s.fetcher.hasLogCallback = true → t0 ≤ t1 → LogInv s → dursNonneg s.logs →
      (∀ (limit : Int) (sid : Option String) (env : FetchEnv),
        LogInv (fetchVoltage s limit sid env t0 t1).sys ∧
        dursNonneg (fetchVoltage s limit sid env t0 t1).sys.logs ∧
        ∃ recs : List LogRecord,
          (fetchVoltage s limit sid env t0 t1).sys.logs = s.logs ++ recs ∧
          recs.length = fetchListLogCount s "voltageReadings" env) ∧
      (∀ (limit : Int) (sid : Option String) (env : FetchEnv),
        LogInv (fetchPowerQuality s limit sid env t0 t1).sys ∧
        dursNonneg (fetchPowerQuality s limit sid env t0 t1).sys.logs ∧
        ∃ recs : List LogRecord,
          (fetchPowerQuality s limit sid env t0 t1).sys.logs = s.logs ++ recs ∧
          recs.length = fetchListLogCount s "powerQuality" env) ∧
      (∀ (limit : Int) (sev : Option String) (env : FetchEnv),
        LogInv (fetchFaults s limit sev env t0 t1).sys ∧
        dursNonneg (fetchFaults s limit sev env t0 t1).sys.logs ∧
        ∃ recs : List LogRecord,
          (fetchFaults s limit sev env t0 t1).sys.logs = s.logs ++ recs ∧
          recs.length = fetchListLogCount s "faultEvents" env) ∧
      (∀ env : FetchEnv,
        LogInv (fetchStats s env t0 t1).sys ∧
        dursNonneg (fetchStats s env t0 t1).sys.logs ∧
        ∃ recs : List LogRecord,
          (fetchStats s env t0 t1).sys.logs = s.logs ++ recs ∧
          recs.length = fetchStatsLogCount s env) ∧
      (∀ env : FetchEnv,
        LogInv (fetchSensorStatus s env t0 t1).sys ∧
        dursNonneg (fetchSensorStatus s env t0 t1).sys.logs ∧
        ∃ recs : List LogRecord,
          (fetchSensorStatus s env t0 t1).sys.logs = s.logs ++ recs ∧
          recs.length = restLogCount env.rest) ∧
      (∀ (fieldName : String) (env : FetchEnv),
        fetchListLogCount s fieldName env ≤ 2 ∧ fetchStatsLogCount s env ≤ 2) := by
  intro s t0 t1 hcb ht hinv hdur
  refine ⟨?_, ?_, ?_, ?_, ?_, ?_⟩
  · intro limit sid env
    exact listOp_log_count s "voltageReadings" "Invalid voltage data received"
      (voltageUrl limit sid)
      (Json.obj [("query", Json.str "voltageReadings"),
                 ("limit", Json.num limit), ("sensorId", jsonOfOptStr sid)])
      mapVoltageReading countSummary env t0 t1 hcb ht hinv hdur
  · intro limit sid env
    exact listOp_log_count s "powerQuality" "Invalid power quality data received"
      (powerQualityUrl limit sid)
      (Json.obj [("query", Json.str "powerQuality"),
                 ("limit", Json.num limit), ("sensorId", jsonOfOptStr sid)])
      mapPowerQualityMetric countSummary env t0 t1 hcb ht hinv hdur
  · intro limit sev env
    exact listOp_log_count s "faultEvents" "Invalid fault events data received"
      "/api/faults/recent"
      (Json.obj [("query", Json.str "faultEvents"),
                 ("limit", Json.num limit), ("severity", jsonOfOptStr sev)])
      mapFaultEvent countSummary env t0 t1 hcb ht hinv hdur
  · intro env
    exact fetchStats_log_count s env t0 t1 hcb ht hinv hdur
  · intro env
    exact restGet_log_count s "/api/sensors/status" countSummary env.rest t0 t1
      hcb ht hinv hdur
  · intro fieldName env
    rcases env with ⟨renv, genv⟩
    constructor
    · rcases renv <;> rcases genv <;>
        simp [fetchListLogCount, gqlListLogCount, restLogCount] <;>
        split_ifs <;> omega
    · rcases renv <;> rcases genv <;>
        simp [fetchStatsLogCount, gqlStatsLogCount, restLogCount] <;>
        split_ifs <;> omega

/-- Witness for the amended C4 at a concrete REST-mode success: exactly one
record is appended and the sink invariant holds afterwards. -/
theorem claim_C4_witness :
    LogInv (fetchVoltage restState 30 none
      ⟨RestOutcome.resp 200 (Json.arr []), GqlOutcome.ok Json.null⟩ 0 5).sys ∧
    ∃ recs : List LogRecord,
      (fetchVoltage restState 30 none
        ⟨RestOutcome.resp 200 (Json.arr []), GqlOutcome.ok Json.null⟩ 0 5).sys.logs =
        restState.logs ++ recs ∧
      recs.length = fetchListLogCount restState "voltageReadings"
        ⟨RestOutcome.resp 200 (Json.arr []), GqlOutcome.ok Json.null⟩ := by
  have hinv : LogInv restState := by
    constructor
    · simp [idsStrictMono, restState]
    · intro r hr
      simp [restState] at hr
  have hdur : dursNonneg restState.logs := by
    intro r hr
    simp [restState] at hr
  have h := claim_C4_amended restState 0 5 rfl (by omega) hinv hdur
  exact ⟨(h.1 30 none ⟨RestOutcome.resp 200 (Json.arr []), GqlOutcome.ok Json.null⟩).1,
         (h.1 30 none ⟨RestOutcome.resp 200 (Json.arr []), GqlOutcome.ok Json.null⟩).2.2⟩

end GridApp
